import Mathlib

/-!
Shallow embedding of the `distbuild/bootstrap` utility (`src/bootstrap.go`,
which concatenates three near-duplicate variants of the program, plus the
per-OS `createAgentCommand` files).

Modelling conventions:
* The process environment is an association list `Env`; `os.LookupEnv` is
  `lookupEnv` (first binding wins), `os.Setenv` is `setEnvGo` (rejecting an
  empty key or a key containing an equals sign, as the OS does, and otherwise
  making the new binding the visible one).
* Filesystem paths are component lists (`Path`); `filepath.Join(a, "b", "c")`
  becomes `a ++ ["b", "c"]` and `filepath.Base` becomes `baseName`.
* Side-effecting steps return, next to their `Except String Unit` result, the
  ordered list of filesystem operations they performed (`FsAction`), and the
  outcomes of external calls (git, HTTP, ln) are explicit parameters, so a
  run of the Go function corresponds to one evaluation of the Lean function.
* `applyActs` interprets an action trace as a transformer of a functional
  filesystem `Fs : Path → Option FsEntry`.
-/

namespace Bootstrap

/-- Process environment: association list, first binding visible. -/
abbrev Env := List (String × String)

/-- `os.LookupEnv`: first binding for the key, if any. -/
def lookupEnv : Env → String → Option String
  | [], _ => none
  | (k, v) :: rest, key => if k = key then some v else lookupEnv rest key

/-- `os.Setenv` as used by `loadEnvFile` (its error is discarded by the Go
code): an empty key or a key containing an equals sign is rejected and the
environment is unchanged; otherwise the new binding becomes visible. -/
def setEnvGo (env : Env) (key value : String) : Env :=
  if key.data = [] then env
  else if '=' ∈ key.data then env
  else (key, value) :: env

/-- `unicode.IsSpace` restricted to the ASCII whitespace characters relevant
to `strings.TrimSpace`. -/
def goIsSpace (c : Char) : Bool :=
  c = ' ' || c = '\t' || c = '\n' || c = '\x0b' || c = '\x0c' || c = '\r'

/-- `strings.TrimSpace` on the character list of a string. -/
def trimL (l : List Char) : List Char :=
  ((l.dropWhile goIsSpace).reverse.dropWhile goIsSpace).reverse

/-- `strings.SplitN(line, "=", 2)`: `none` when the line has no equals sign,
otherwise the text before the first equals sign and the text after it. -/
def splitFirstEqL : List Char → Option (List Char × List Char)
  | [] => none
  | c :: cs =>
    if c = '=' then some ([], cs)
    else
      match splitFirstEqL cs with
      | none => none
      | some (a, b) => some (c :: a, b)

/-- Splits character data at newline characters, accumulator-style. -/
def splitLinesAux : List Char → List Char → List (List Char)
  | [], acc => [acc.reverse]
  | c :: rest, acc =>
    if c = '\n' then acc.reverse :: splitLinesAux rest []
    else splitLinesAux rest (c :: acc)

/-- Strips one trailing carriage return, as `bufio.ScanLines` does. -/
def dropTrailingCR (l : List Char) : List Char :=
  match l.getLast? with
  | some c => if c = '\r' then l.dropLast else l
  | none => l

/-- `bufio.Scanner` with `ScanLines`: the input split at newlines, without a
final empty fragment after a trailing newline, each line stripped of one
trailing carriage return. -/
def goLines (content : String) : List String :=
  let parts := splitLinesAux content.data []
  let parts := if parts.getLast? = some ([] : List Char) then parts.dropLast else parts
  parts.map (fun l => String.mk (dropTrailingCR l))

/-- Body of the `loadEnvFile` scan loop on character data: skip empty lines
and lines starting with a number-sign character, skip lines without an
equals sign, and otherwise set the trimmed key to the trimmed value. -/
def procEnvLineL (env : Env) (line : List Char) : Env :=
  if line.isEmpty then env
  else if line.head? = some '#' then env
  else
    match splitFirstEqL line with
    | none => env
    | some (k, v) => setEnvGo env (String.mk (trimL k)) (String.mk (trimL v))

/-- Body of the `loadEnvFile` scan loop. -/
def procEnvLine (env : Env) (line : String) : Env :=
  procEnvLineL env line.data

/-- `loadEnvFile` from `src/bootstrap.go`: folds the scan-loop body over the
lines of the embedded `.env` content and always returns `nil`. -/
def loadEnvFile (content : String) (env : Env) : Except String Env :=
  Except.ok ((goLines content).foldl procEnvLine env)

/-- Filesystem paths as component lists; `filepath.Join` is list append. -/
abbrev Path := List String

/-- `filepath.Base`: the last path component (`"."` for an empty path). -/
def baseName (p : Path) : String := p.getLastD "."

/-- Filesystem operations performed by the bootstrap steps, in program
order. -/
inductive FsAction
  | removeAll (target : Path)
  | mkdirAll (target : Path)
  | gitClone (repo : String) (target : Path)
  | lnForce (src : Path) (dst : Path)
deriving DecidableEq

/-- True when the action list contains a recursive removal. -/
def actsHaveRemove (l : List FsAction) : Bool :=
  l.any fun a =>
    match a with
    | FsAction.removeAll _ => true
    | _ => false

/-- `cloneDistbuildRepo` of the deploy-agent variant (`src/bootstrap.go`
lines 344-369; the third variant at 639-664 is identical): remove the target
recursively, recreate it, then require `DISTBUILD_REPO` and run git clone.
`gitResult` is the external git outcome (`some` combined error text on a
non-zero exit). -/
def cloneDistbuildRepo (env : Env) (aospPath : Path) (gitResult : Option String) :
    Except String Unit × List FsAction :=
  let targetPath := aospPath ++ ["build", "distbuild"]
  match lookupEnv env "DISTBUILD_REPO" with
  | none =>
    (Except.error "environment variable DISTBUILD_REPO not set",
     [FsAction.removeAll targetPath, FsAction.mkdirAll targetPath])
  | some repo =>
    match gitResult with
    | some e =>
      (Except.error e,
       [FsAction.removeAll targetPath, FsAction.mkdirAll targetPath])
    | none =>
      (Except.ok (),
       [FsAction.removeAll targetPath, FsAction.mkdirAll targetPath,
        FsAction.gitClone repo targetPath])

/-- `cloneDistbuildRepo` of the first variant (`src/bootstrap.go` lines
104-124): only `MkdirAll`, no removal of prior contents, then the same
environment check and clone. -/
def cloneDistbuildRepoV1 (env : Env) (aospPath : Path) (gitResult : Option String) :
    Except String Unit × List FsAction :=
  let targetPath := aospPath ++ ["build", "distbuild"]
  match lookupEnv env "DISTBUILD_REPO" with
  | none =>
    (Except.error "environment variable DISTBUILD_REPO not set",
     [FsAction.mkdirAll targetPath])
  | some repo =>
    match gitResult with
    | some e => (Except.error e, [FsAction.mkdirAll targetPath])
    | none =>
      (Except.ok (), [FsAction.mkdirAll targetPath, FsAction.gitClone repo targetPath])

/-- The collect loop of `downloadResources`: the first `some` in arrival
order, `none` when every received value is `none`. -/
def firstSome : List (Option String) → Option String
  | [] => none
  | some e :: _ => some e
  | none :: rest => firstSome rest

/-- Number of channel receives the collect loop performs before returning:
it stops at the first error, otherwise consumes the whole list. -/
def receivesCount : List (Option String) → Nat
  | [] => 0
  | some _ :: _ => 1
  | none :: rest => 1 + receivesCount rest

/-- `downloadResources` of the deploy-agent variant (`src/bootstrap.go`
lines 414-465): create the bin directory, require `PROXY_BIN`, `AGENT_BIN`
and `DISTNINJA_BIN` in that order, then run the three downloads concurrently
and return the first error received. `arrivals` is the sequence of download
results in the order they arrive on the buffered error channel. -/
def downloadResources (env : Env) (distbuildPath : Path)
    (arrivals : List (Option String)) : Except String Unit × List FsAction :=
  let binDir := distbuildPath ++ ["boong", "bin"]
  let acts := [FsAction.mkdirAll binDir]
  match lookupEnv env "PROXY_BIN" with
  | none => (Except.error "environment variable PROXY_BIN not set", acts)
  | some _ =>
    match lookupEnv env "AGENT_BIN" with
    | none => (Except.error "environment variable AGENT_BIN not set", acts)
    | some _ =>
      match lookupEnv env "DISTNINJA_BIN" with
      | none => (Except.error "environment variable DISTNINJA_BIN not set", acts)
      | some _ =>
        match firstSome arrivals with
        | some e => (Except.error e, acts)
        | none => (Except.ok (), acts)

/-- `downloadAgent` (`src/bootstrap.go` lines 371-386): create the bin
directory, require `AGENT_BIN`, then download the agent binary. `dl` is the
download outcome (`some` error text on failure). -/
def downloadAgent (env : Env) (distbuildPath : Path) (dl : Option String) :
    Except String Unit × List FsAction :=
  let binDir := distbuildPath ++ ["boong", "bin"]
  let acts := [FsAction.mkdirAll binDir]
  match lookupEnv env "AGENT_BIN" with
  | none => (Except.error "environment variable AGENT_BIN not set", acts)
  | some _ =>
    match dl with
    | some e => (Except.error e, acts)
    | none => (Except.ok (), acts)

/-- Outcome of the external HTTP call made by `downloadFile`. -/
inductive HttpOutcome
  | transportFailure (msg : String)
  | response (status : Nat) (body : String)
deriving DecidableEq

/-- The request `downloadFile` issues: URL plus the basic-auth credentials
attached to it, if any. -/
structure HttpRequest where
  url : String
  basicAuth : Option (String × String)
deriving DecidableEq

/-- Observable outcome of one `downloadFile` call: the returned error value,
the request that was issued (none when the function failed before issuing
it), and the destination file's content and permission mode when the
function wrote it. -/
structure DownloadResult where
  result : Except String Unit
  request : Option HttpRequest
  written : Option (String × Nat)

/-- `os.Getenv`: the bound value, or the empty string when unset. -/
def getEnvD (env : Env) (key : String) : String := (lookupEnv env key).getD ""

/-- `downloadFile` of the deploy-agent variant (`src/bootstrap.go` lines
467-512; the third variant at 719-764 is identical): build a GET request,
require non-empty `DISTBUILD_AUTH_USER` and `DISTBUILD_AUTH_PASSWORD` and
attach them as basic auth, fail on transport errors and on any status other
than 200, and otherwise write the body to the destination and chmod it to
0755. File creation, copy and chmod are modelled as succeeding. -/
def downloadFile (env : Env) (url : String) (filePath : Path)
    (outcome : HttpOutcome) : DownloadResult :=
  let base := baseName filePath
  let username := getEnvD env "DISTBUILD_AUTH_USER"
  let password := getEnvD env "DISTBUILD_AUTH_PASSWORD"
  if username = "" ∨ password = "" then
    { result := Except.error
        ("environment variables DISTBUILD_AUTH_USER or DISTBUILD_AUTH_PASSWORD not set ["
          ++ base ++ "]"),
      request := none, written := none }
  else
    let req : HttpRequest := { url := url, basicAuth := some (username, password) }
    match outcome with
    | HttpOutcome.transportFailure m =>
      { result := Except.error ("download failed: " ++ m ++ " [" ++ base ++ "]"),
        request := some req, written := none }
    | HttpOutcome.response status body =>
      if status ≠ 200 then
        { result := Except.error
            ("download failed with status code " ++ toString status ++ " [" ++ base ++ "]"),
          request := some req, written := none }
      else
        { result := Except.ok (), request := some req, written := some (body, 0o755) }

/-- `downloadFile` of the first variant (`src/bootstrap.go` lines 179-207):
plain `http.Get` with no credentials and no status-code check; every
response, whatever its status, is written to the destination and chmodded
to 0755. -/
def downloadFileV1 (url : String) (filePath : Path) (outcome : HttpOutcome) :
    DownloadResult :=
  match outcome with
  | HttpOutcome.transportFailure m =>
    { result := Except.error ("download failed: " ++ m ++ " [" ++ baseName filePath ++ "]"),
      request := some { url := url, basicAuth := none }, written := none }
  | HttpOutcome.response _ body =>
    { result := Except.ok (),
      request := some { url := url, basicAuth := none }, written := some (body, 0o755) }

/-- Observable outcome of `createSymlinks`: the returned error value, the
`ln -sf` commands attempted in order (source, destination), and the links
actually installed (in order, never removed afterwards). -/
structure SymlinkRun where
  result : Except String Unit
  attempted : List (Path × Path)
  installed : List FsAction

/-- Destination of the published symlinks under the system bin directory. -/
def usrLocalBin (name : String) : Path := ["usr", "local", "bin", name]

/-- `createSymlinks` (`src/bootstrap.go` lines 514-533 and 766-785): force
the distninja link first; on failure return at once, never attempting the
proxy link; otherwise force the proxy link, and on its failure return with
the distninja link left in place. `lnDistninja` and `lnProxy` are the
external command outcomes (`some` error text on failure). -/
def createSymlinks (distbuildPath : Path) (lnDistninja lnProxy : Option String) :
    SymlinkRun :=
  let distninjaSrc := distbuildPath ++ ["boong", "bin", "distninja"]
  let proxySrc := distbuildPath ++ ["boong", "bin", "proxy"]
  match lnDistninja with
  | some e =>
    { result := Except.error ("distninja symlink failed: " ++ e),
      attempted := [(distninjaSrc, usrLocalBin "distninja")],
      installed := [] }
  | none =>
    match lnProxy with
    | some e =>
      { result := Except.error ("proxy symlink failed: " ++ e),
        attempted := [(distninjaSrc, usrLocalBin "distninja"), (proxySrc, usrLocalBin "proxy")],
        installed := [FsAction.lnForce distninjaSrc (usrLocalBin "distninja")] }
    | none =>
      { result := Except.ok (),
        attempted := [(distninjaSrc, usrLocalBin "distninja"), (proxySrc, usrLocalBin "proxy")],
        installed := [FsAction.lnForce distninjaSrc (usrLocalBin "distninja"),
                      FsAction.lnForce proxySrc (usrLocalBin "proxy")] }

/-- The pipeline steps of `run` in the deploy-agent variant
(`src/bootstrap.go` lines 292-318). -/
inductive Step
  | loadEnv | dlAgent | startAgent | cloneRepo | dlResources | symlinks
deriving DecidableEq

/-- Steps belonging to agent-deploy mode. -/
def isAgentModeStep : Step → Bool
  | Step.loadEnv => true
  | Step.dlAgent => true
  | Step.startAgent => true
  | _ => false

/-- Steps belonging to provisioning mode. -/
def isProvModeStep : Step → Bool
  | Step.loadEnv => true
  | Step.cloneRepo => true
  | Step.dlResources => true
  | Step.symlinks => true
  | _ => false

/-- `run` of the deploy-agent variant: the steps executed in order and
whether the run succeeded, given which steps fail. A failing step is the
last one executed; with `deployAgent` the pipeline is load env, download
agent, start agent; otherwise load env, clone, download resources, create
symlinks. -/
def runSteps (deployAgent : Bool) (fails : Step → Bool) : List Step × Bool :=
  if fails Step.loadEnv then ([Step.loadEnv], false)
  else if deployAgent then
    if fails Step.dlAgent then ([Step.loadEnv, Step.dlAgent], false)
    else if fails Step.startAgent then
      ([Step.loadEnv, Step.dlAgent, Step.startAgent], false)
    else ([Step.loadEnv, Step.dlAgent, Step.startAgent], true)
  else
    if fails Step.cloneRepo then ([Step.loadEnv, Step.cloneRepo], false)
    else if fails Step.dlResources then
      ([Step.loadEnv, Step.cloneRepo, Step.dlResources], false)
    else if fails Step.symlinks then
      ([Step.loadEnv, Step.cloneRepo, Step.dlResources, Step.symlinks], false)
    else ([Step.loadEnv, Step.cloneRepo, Step.dlResources, Step.symlinks], true)

/-- Error produced when both mutually exclusive flags are supplied. -/
def mutualExclusionError : String :=
  "if any flags in the group [aosp-path deploy-agent] are set none of the others can be"

/-- The command-line entry of the deploy-agent variant. The flag layer
follows the contract the source sets up in `init` (lines 274-284):
`MarkFlagsMutuallyExclusive("aosp-path", "deploy-agent")` makes the cobra
library reject a command line supplying both flags before the `Run`
function is invoked, so no step runs; unsupplied flags take their defaults
(empty string, false). `Run` itself (lines 261-271) rejects the case where
neither flag is given, again before any step, and otherwise calls `run`. -/
def execute (aospFlag : Option String) (deployFlag : Option Bool)
    (fails : Step → Bool) : Except String (List Step × Bool) :=
  if aospFlag.isSome && deployFlag.isSome then Except.error mutualExclusionError
  else if aospFlag.getD "" = "" ∧ deployFlag.getD false = false then
    Except.error "please specify either --aosp-path or --deploy-agent flag"
  else Except.ok (runSteps (deployFlag.getD false) fails)

/-- Entries of the modelled filesystem. -/
inductive FsEntry
  | dir
  | file (content : String)
  | link (src : Path)

/-- Functional filesystem: each path holds at most one entry. -/
abbrev Fs := Path → Option FsEntry

/-- `seg a b`: `a` is an initial segment of `b` (so `b` is `a` or lies
below it). -/
def seg : Path → Path → Bool
  | [], _ => true
  | _ :: _, [] => false
  | a :: as, b :: bs => if a = b then seg as bs else false

/-- Interprets one filesystem action: `RemoveAll` clears the target and
everything under it; `MkdirAll` creates the target and its ancestors as
directories where nothing exists yet; `git clone` fills the target with the
repository's tree (`repoMap` gives each repository's content, deterministic
per URL); `ln -sf` replaces the destination with a symlink. -/
def applyAct (repoMap : String → Path → Option FsEntry) (fs : Fs) (a : FsAction) : Fs :=
  match a with
  | FsAction.removeAll t => fun p => if seg t p then none else fs p
  | FsAction.mkdirAll t => fun p =>
      if seg p t then
        match fs p with
        | some e => some e
        | none => some FsEntry.dir
      else fs p
  | FsAction.gitClone repo t => fun p =>
      if p = t then some FsEntry.dir
      else if seg t p then repoMap repo (p.drop t.length)
      else fs p
  | FsAction.lnForce src dst => fun p => if p = dst then some (FsEntry.link src) else fs p

/-- Interprets an action trace left to right. -/
def applyActs (repoMap : String → Path → Option FsEntry) (acts : List FsAction) (fs : Fs) : Fs :=
  acts.foldl (applyAct repoMap) fs

/-! Helper lemmas. -/

theorem mem_of_mem_dropWhile {c : Char} {p : Char → Bool} :
    ∀ {l : List Char}, c ∈ l.dropWhile p → c ∈ l := by
  intro l h
  induction l with
  | nil => simp at h
  | cons a as ih =>
    by_cases hp : p a
    · rw [List.dropWhile_cons_of_pos hp] at h
      exact List.mem_cons_of_mem a (ih h)
    · rwa [List.dropWhile_cons_of_neg hp] at h

theorem mem_of_mem_trimL {c : Char} {l : List Char} (h : c ∈ trimL l) : c ∈ l := by
  unfold trimL at h
  rw [List.mem_reverse] at h
  have h2 := mem_of_mem_dropWhile h
  rw [List.mem_reverse] at h2
  exact mem_of_mem_dropWhile h2

theorem splitFirstEqL_eq_none {l : List Char} (h : '=' ∉ l) :
    splitFirstEqL l = none := by
  induction l with
  | nil => rfl
  | cons c cs ih =>
    have hc : ¬ c = '=' := fun hc => h (hc ▸ List.mem_cons_self c cs)
    have hcs : '=' ∉ cs := fun hm => h (List.mem_cons_of_mem c hm)
    unfold splitFirstEqL
    rw [if_neg hc, ih hcs]

theorem splitFirstEqL_append {k v : List Char} (h : '=' ∉ k) :
    splitFirstEqL (k ++ '=' :: v) = some (k, v) := by
  induction k with
  | nil => simp [splitFirstEqL]
  | cons c cs ih =>
    have hc : ¬ c = '=' := fun hc => h (hc ▸ List.mem_cons_self c cs)
    have hcs : '=' ∉ cs := fun hm => h (List.mem_cons_of_mem c hm)
    simp only [List.cons_append]
    unfold splitFirstEqL
    rw [if_neg hc, ih hcs]

theorem procEnvLineL_keyValue (env : Env) (k v : List Char) (hk : '=' ∉ k)
    (hh : (k ++ '=' :: v).head? ≠ some '#') :
    procEnvLineL env (k ++ '=' :: v) =
      setEnvGo env (String.mk (trimL k)) (String.mk (trimL v)) := by
  unfold procEnvLineL
  have hne : (k ++ '=' :: v).isEmpty = false := by
    cases k <;> simp
  rw [hne, if_neg hh, splitFirstEqL_append hk]
  simp

theorem firstSome_eq_none_iff {l : List (Option String)} :
    firstSome l = none ↔ ∀ x ∈ l, x = none := by
  induction l with
  | nil => simp [firstSome]
  | cons a rest ih =>
    cases a with
    | none => simp [firstSome, ih]
    | some e => simp [firstSome]

theorem receivesCount_of_all_none {l : List (Option String)}
    (h : ∀ x ∈ l, x = none) : receivesCount l = l.length := by
  induction l with
  | nil => rfl
  | cons a rest ih =>
    have ha : a = none := h a (List.mem_cons_self a rest)
    subst ha
    have : ∀ x ∈ rest, x = none := fun x hx => h x (List.mem_cons_of_mem _ hx)
    simp [receivesCount, ih this, Nat.add_comm]

theorem seg_refl (l : Path) : seg l l = true := by
  induction l with
  | nil => rfl
  | cons a as ih => simpa [seg] using ih

theorem lookupEnv_setEnvGo (env : Env) (key value : String)
    (h1 : key.data ≠ []) (h2 : '=' ∉ key.data) :
    lookupEnv (setEnvGo env key value) key = some value := by
  unfold setEnvGo
  rw [if_neg h1, if_neg h2]
  unfold lookupEnv
  rw [if_pos rfl]

/-! Claim theorems. -/

/-- C10: `loadEnvFile` is total and never fails: for every input string it
returns `nil`; it skips empty lines, lines beginning with a number-sign
character, and lines containing no equals sign; every remaining line is
split at its first equals sign only, and the whitespace-trimmed key is set
in the environment to the whitespace-trimmed value. -/
theorem C10_loadEnvFile_total (content : String) (env : Env)
    (l : String) (k v : List Char) :
    loadEnvFile content env = Except.ok ((goLines content).foldl procEnvLine env)
    ∧ procEnvLine env "" = env
    ∧ (l.data.head? = some '#' → procEnvLine env l = env)
    ∧ ('=' ∉ l.data → procEnvLine env l = env)
    ∧ ('=' ∉ k → (k ++ '=' :: v).head? ≠ some '#' →
        procEnvLine env (String.mk (k ++ '=' :: v)) =
          setEnvGo env (String.mk (trimL k)) (String.mk (trimL v))) := by
  refine ⟨rfl, rfl, ?_, ?_, ?_⟩
  · intro hh
    unfold procEnvLine procEnvLineL
    cases hl : l.data with
    | nil => rw [hl] at hh; simp at hh
    | cons c cs =>
      rw [hl] at hh
      simp only [List.head?] at hh
      simp [hh]
  · intro hne
    unfold procEnvLine procEnvLineL
    by_cases h1 : l.data.isEmpty
    · simp [h1]
    · by_cases h2 : l.data.head? = some '#'
      · simp [h1, h2]
      · simp [h1, h2, splitFirstEqL_eq_none hne]
  · intro hk hh
    exact procEnvLineL_keyValue env k v hk hh

/-- C10 witness: concrete instances of the per-line behaviors. -/
theorem C10_witness :
    loadEnvFile "A=1\n# c\nnoeq" []
      = Except.ok ((goLines "A=1\n# c\nnoeq").foldl procEnvLine [])
    ∧ procEnvLine [] "" = []
    ∧ procEnvLine [] "# c" = []
    ∧ procEnvLine [] "noeq" = []
    ∧ procEnvLine [] (String.mk ([' ', 'A'] ++ '=' :: [' ', 'b'])) =
        setEnvGo [] (String.mk (trimL [' ', 'A'])) (String.mk (trimL [' ', 'b'])) := by
  have h1 := C10_loadEnvFile_total "A=1\n# c\nnoeq" [] "# c" [' ', 'A'] [' ', 'b']
  have h2 := C10_loadEnvFile_total "A=1\n# c\nnoeq" [] "noeq" [' ', 'A'] [' ', 'b']
  exact ⟨h1.1, h1.2.1, h1.2.2.1 (by decide), h2.2.2.2.1 (by decide),
         h1.2.2.2.2 (by decide) (by decide)⟩

/-- C4 counterexample: with `REPO_HOST` already bound to `preexisting` in the
process environment, loading a defaults file containing
`REPO_HOST=default` leaves `default` — the file's value — in effect, not the
pre-existing one, because `loadEnvFile` calls `os.Setenv` unconditionally. -/
theorem C4_counterexample :
    loadEnvFile "REPO_HOST=default" [("REPO_HOST", "preexisting")]
      = Except.ok [("REPO_HOST", "default"), ("REPO_HOST", "preexisting")]
    ∧ lookupEnv [("REPO_HOST", "default"), ("REPO_HOST", "preexisting")] "REPO_HOST"
      = some "default"
    ∧ some ("default" : String) ≠ some "preexisting" := by
  refine ⟨rfl, by decide, by decide⟩

/-- C4 amended: for every key that appears in the bundled `.env` defaults
file, the file's value is the one in effect after `loadEnvFile` runs,
whatever the pre-existing process environment bound the key to: the bundled
defaults override the pre-existing environment, not the other way around. -/
theorem C4_envfile_value_overrides (env : Env) (k v : List Char)
    (hk : '=' ∉ k) (hh : (k ++ '=' :: v).head? ≠ some '#')
    (ht : trimL k ≠ []) :
    lookupEnv (procEnvLine env (String.mk (k ++ '=' :: v))) (String.mk (trimL k))
      = some (String.mk (trimL v)) := by
  show lookupEnv (procEnvLineL env (k ++ '=' :: v)) (String.mk (trimL k)) = _
  rw [procEnvLineL_keyValue env k v hk hh]
  exact lookupEnv_setEnvGo env _ _ ht (fun hm => hk (mem_of_mem_trimL hm))

/-- C4 witness: a concrete pre-existing binding is overridden. -/
theorem C4_witness :
    lookupEnv (procEnvLine [("R", "old")] (String.mk (['R'] ++ '=' :: ['x'])))
        (String.mk (trimL ['R'])) = some (String.mk (trimL ['x'])) :=
  C4_envfile_value_overrides [("R", "old")] ['R'] ['x']
    (by decide) (by decide) (by decide)

/-- C1 counterexample: with `PROXY_BIN` and `DISTNINJA_BIN` set but
`AGENT_BIN` unset, both `downloadResources` and `downloadAgent` return an
error; the step is not skipped with a warning. -/
theorem C1_counterexample :
    (downloadResources [("PROXY_BIN", "u"), ("DISTNINJA_BIN", "w")] ["db"]
        [none, none, none]).1
      = Except.error "environment variable AGENT_BIN not set"
    ∧ (downloadAgent [("PROXY_BIN", "u"), ("DISTNINJA_BIN", "w")] ["db"] none).1
      = Except.error "environment variable AGENT_BIN not set" :=
  ⟨rfl, rfl⟩

/-- C1 amended: a missing resource URL variable is a fatal configuration
error, not a skipped step: `downloadResources` returns the "not set" error
for the first unset of `PROXY_BIN`, `AGENT_BIN`, `DISTNINJA_BIN` (checked in
that order), and `downloadAgent` does so for `AGENT_BIN`; no warning or skip
path exists. -/
theorem C1_missing_url_is_error (env : Env) (dp : Path)
    (arrivals : List (Option String)) (dl : Option String) :
    (lookupEnv env "PROXY_BIN" = none →
      (downloadResources env dp arrivals).1 =
        Except.error "environment variable PROXY_BIN not set")
    ∧ ((∃ u, lookupEnv env "PROXY_BIN" = some u) →
      lookupEnv env "AGENT_BIN" = none →
      (downloadResources env dp arrivals).1 =
        Except.error "environment variable AGENT_BIN not set")
    ∧ ((∃ u, lookupEnv env "PROXY_BIN" = some u) →
      (∃ u, lookupEnv env "AGENT_BIN" = some u) →
      lookupEnv env "DISTNINJA_BIN" = none →
      (downloadResources env dp arrivals).1 =
        Except.error "environment variable DISTNINJA_BIN not set")
    ∧ (lookupEnv env "AGENT_BIN" = none →
      (downloadAgent env dp dl).1 =
        Except.error "environment variable AGENT_BIN not set") := by
  refine ⟨?_, ?_, ?_, ?_⟩
  · intro h; simp [downloadResources, h]
  · rintro ⟨u, hu⟩ h; simp [downloadResources, hu, h]
  · rintro ⟨u, hu⟩ ⟨w, hw⟩ h; simp [downloadResources, hu, hw, h]
  · intro h; simp [downloadAgent, h]

/-- C1 witness: concrete environments with one variable unset. -/
theorem C1_witness :
    (downloadResources [("PROXY_BIN", "p1"), ("DISTNINJA_BIN", "d1")] ["base"]
        [none, none, none]).1
      = Except.error "environment variable AGENT_BIN not set"
    ∧ (downloadAgent [] ["base"] none).1
      = Except.error "environment variable AGENT_BIN not set" := by
  have h1 := C1_missing_url_is_error [("PROXY_BIN", "p1"), ("DISTNINJA_BIN", "d1")]
    ["base"] [none, none, none] none
  have h2 := C1_missing_url_is_error [] ["base"] [none, none, none] none
  exact ⟨h1.2.1 ⟨"p1", rfl⟩ rfl, h2.2.2.2 rfl⟩

/-- C2 counterexample: when the first arrival is an error, the collect loop
of `downloadResources` returns it after a single receive; it does not wait
for the other two downloads to report completion (the claim requires three
receives). -/
theorem C2_counterexample :
    (downloadResources [("PROXY_BIN", "p"), ("AGENT_BIN", "a"), ("DISTNINJA_BIN", "d")]
        ["db"] [some "boom", none, none]).1 = Except.error "boom"
    ∧ receivesCount [some "boom", none, none] = 1
    ∧ receivesCount [some "boom", none, none] ≠ 3 :=
  ⟨rfl, rfl, by decide⟩

/-- C2 amended: with the three URL variables set and the three downloads
launched, `downloadResources` returns nil iff all three succeed; when at
least one fails it returns the first error in arrival order, discarding the
later results; and it consumes all three completion reports only in the
all-success case, stopping at the first error otherwise. -/
theorem C2_first_error_wins (env : Env) (dp : Path) (arrivals : List (Option String))
    (hp : ∃ u, lookupEnv env "PROXY_BIN" = some u)
    (ha : ∃ u, lookupEnv env "AGENT_BIN" = some u)
    (hd : ∃ u, lookupEnv env "DISTNINJA_BIN" = some u)
    (hlen : arrivals.length = 3) :
    ((downloadResources env dp arrivals).1 = Except.ok () ↔ ∀ x ∈ arrivals, x = none)
    ∧ (∀ e, (downloadResources env dp arrivals).1 = Except.error e ↔
        firstSome arrivals = some e)
    ∧ ((∀ x ∈ arrivals, x = none) → receivesCount arrivals = 3) := by
  obtain ⟨u, hu⟩ := hp
  obtain ⟨a, hA⟩ := ha
  obtain ⟨d, hD⟩ := hd
  refine ⟨?_, ?_, ?_⟩
  · rw [← firstSome_eq_none_iff]
    cases hfs : firstSome arrivals with
    | none => simp [downloadResources, hu, hA, hD, hfs]
    | some e => simp [downloadResources, hu, hA, hD, hfs]
  · intro e
    cases hfs : firstSome arrivals with
    | none => simp [downloadResources, hu, hA, hD, hfs]
    | some e2 => simp [downloadResources, hu, hA, hD, hfs]
  · intro hall
    rw [receivesCount_of_all_none hall, hlen]

/-- C2 witness: a concrete all-success run and a concrete failing run. -/
theorem C2_witness :
    ((downloadResources [("PROXY_BIN", "p"), ("AGENT_BIN", "a"), ("DISTNINJA_BIN", "d")]
        ["db"] [none, some "late", none]).1 = Except.ok ()
      ↔ ∀ x ∈ ([none, some "late", none] : List (Option String)), x = none)
    ∧ ((downloadResources [("PROXY_BIN", "p"), ("AGENT_BIN", "a"), ("DISTNINJA_BIN", "d")]
        ["db"] [none, some "late", none]).1 = Except.error "late"
      ↔ firstSome [none, some "late", none] = some "late") := by
  have h := C2_first_error_wins
    [("PROXY_BIN", "p"), ("AGENT_BIN", "a"), ("DISTNINJA_BIN", "d")] ["db"]
    [none, some "late", none] ⟨"p", rfl⟩ ⟨"a", rfl⟩ ⟨"d", rfl⟩ (by decide)
  exact ⟨h.1, h.2.1 "late"⟩

/-- C3 counterexample: with an empty environment, `cloneDistbuildRepo`
returns the missing-`DISTBUILD_REPO` error only after removing and
recreating the target directory, and `downloadResources` returns the
missing-`PROXY_BIN` error only after creating the bin directory: filesystem
mutations do occur before the missing-variable error is returned. -/
theorem C3_counterexample :
    (cloneDistbuildRepo [] ["aosp"] none).1
      = Except.error "environment variable DISTBUILD_REPO not set"
    ∧ (cloneDistbuildRepo [] ["aosp"] none).2
      = [FsAction.removeAll ["aosp", "build", "distbuild"],
         FsAction.mkdirAll ["aosp", "build", "distbuild"]]
    ∧ (cloneDistbuildRepo [] ["aosp"] none).2 ≠ []
    ∧ (downloadResources [] ["db"] []).1
      = Except.error "environment variable PROXY_BIN not set"
    ∧ (downloadResources [] ["db"] []).2 = [FsAction.mkdirAll ["db", "boong", "bin"]]
    ∧ (downloadResources [] ["db"] []).2 ≠ [] :=
  ⟨rfl, rfl, by decide, rfl, rfl, by decide⟩

/-- C3 amended: a missing required variable is fatal, but it is detected
only after the step's directory mutations: `cloneDistbuildRepo` removes and
recreates the target before checking `DISTBUILD_REPO`, and
`downloadResources` creates the bin directory before checking `PROXY_BIN`;
those mutations precede the returned error, and no clone or download is
attempted after it. -/
theorem C3_mutations_precede_config_error (env : Env) (aosp dp : Path)
    (g : Option String) (arrivals : List (Option String)) :
    (lookupEnv env "DISTBUILD_REPO" = none →
      (cloneDistbuildRepo env aosp g).1 =
        Except.error "environment variable DISTBUILD_REPO not set"
      ∧ (cloneDistbuildRepo env aosp g).2 =
          [FsAction.removeAll (aosp ++ ["build", "distbuild"]),
           FsAction.mkdirAll (aosp ++ ["build", "distbuild"])])
    ∧ (lookupEnv env "PROXY_BIN" = none →
      (downloadResources env dp arrivals).1 =
        Except.error "environment variable PROXY_BIN not set"
      ∧ (downloadResources env dp arrivals).2 =
          [FsAction.mkdirAll (dp ++ ["boong", "bin"])]) := by
  constructor
  · intro h
    constructor <;> simp [cloneDistbuildRepo, h]
  · intro h
    constructor <;> simp [downloadResources, h]

/-- C3 witness: the amended behavior at a concrete empty environment. -/
theorem C3_witness :
    (cloneDistbuildRepo [] ["root"] none).1 =
      Except.error "environment variable DISTBUILD_REPO not set"
    ∧ (cloneDistbuildRepo [] ["root"] none).2 =
        [FsAction.removeAll (["root"] ++ ["build", "distbuild"]),
         FsAction.mkdirAll (["root"] ++ ["build", "distbuild"])] := by
  have h := C3_mutations_precede_config_error [] ["root"] ["db"] none []
  exact h.1 rfl

/-- C5 counterexample: with credentials configured, a 204 response — a 2xx
status — makes `downloadFile` fail (only 200 is accepted), and the first
variant's `downloadFile` succeeds on a 404 because it never checks the
status code. -/
theorem C5_counterexample :
    (downloadFile [("DISTBUILD_AUTH_USER", "u"), ("DISTBUILD_AUTH_PASSWORD", "p")]
        "http://host/agent" ["bin", "agent"] (HttpOutcome.response 204 "ok")).result
      = Except.error "download failed with status code 204 [agent]"
    ∧ (downloadFileV1 "http://host/agent" ["bin", "agent"]
        (HttpOutcome.response 404 "not found")).result = Except.ok () :=
  ⟨rfl, rfl⟩

/-- C5 amended: in the auth variants of `downloadFile`, a transport failure
or any status other than exactly 200 (including other 2xx statuses) yields
an error whose message ends with the destination file's base name in
brackets, and a 200 response succeeds; the first variant performs no
status-code check, so every response succeeds there. -/
theorem C5_status_check (env : Env) (url : String) (fp : Path) (m : String)
    (status : Nat) (body : String)
    (hu : getEnvD env "DISTBUILD_AUTH_USER" ≠ "")
    (hp : getEnvD env "DISTBUILD_AUTH_PASSWORD" ≠ "") :
    ((downloadFile env url fp (HttpOutcome.transportFailure m)).result =
      Except.error ("download failed: " ++ m ++ " [" ++ baseName fp ++ "]"))
    ∧ (status ≠ 200 →
      (downloadFile env url fp (HttpOutcome.response status body)).result =
        Except.error ("download failed with status code " ++ toString status
          ++ " [" ++ baseName fp ++ "]"))
    ∧ ((downloadFile env url fp (HttpOutcome.response 200 body)).result = Except.ok ())
    ∧ ((downloadFileV1 url fp (HttpOutcome.response status body)).result =
        Except.ok ()) := by
  have hg : ¬ (getEnvD env "DISTBUILD_AUTH_USER" = ""
      ∨ getEnvD env "DISTBUILD_AUTH_PASSWORD" = "") := by
    push_neg
    exact ⟨hu, hp⟩
  refine ⟨?_, ?_, ?_, rfl⟩
  · unfold downloadFile
    rw [if_neg hg]
  · intro hs
    simp [downloadFile, hg, hs]
  · simp [downloadFile, hg]

/-- C5 witness: a concrete 500 failure naming the file and a concrete 200
success. -/
theorem C5_witness :
    (downloadFile [("DISTBUILD_AUTH_USER", "u"), ("DISTBUILD_AUTH_PASSWORD", "p")]
        "http://h/x" ["bin", "proxy"] (HttpOutcome.response 500 "b")).result
      = Except.error ("download failed with status code " ++ toString 500
          ++ " [" ++ baseName ["bin", "proxy"] ++ "]")
    ∧ (downloadFile [("DISTBUILD_AUTH_USER", "u"), ("DISTBUILD_AUTH_PASSWORD", "p")]
        "http://h/x" ["bin", "proxy"] (HttpOutcome.response 200 "b")).result
      = Except.ok () := by
  have h := C5_status_check [("DISTBUILD_AUTH_USER", "u"), ("DISTBUILD_AUTH_PASSWORD", "p")]
    "http://h/x" ["bin", "proxy"] "m" 500 "b" (by decide) (by decide)
  exact ⟨h.2.1 (by decide), h.2.2.1⟩

/-- C7 counterexample: with no credentials configured and a server that
would answer 200, `downloadFile` fails outright — the absence of configured
credentials by itself causes the download to fail. -/
theorem C7_counterexample :
    (downloadFile [] "http://h/agent" ["bin", "agent"]
        (HttpOutcome.response 200 "body")).result
      = Except.error
          "environment variables DISTBUILD_AUTH_USER or DISTBUILD_AUTH_PASSWORD not set [agent]"
    ∧ (downloadFile [] "http://h/agent" ["bin", "agent"]
        (HttpOutcome.response 200 "body")).request = none :=
  ⟨rfl, rfl⟩

/-- C7 amended: the auth variants of `downloadFile` require both
`DISTBUILD_AUTH_USER` and `DISTBUILD_AUTH_PASSWORD` to be non-empty and
always attach them as basic auth; when either is empty the download fails
before any request is issued; on a 200 response the body is written to the
destination file with mode 0755. The first variant never attaches
credentials. -/
theorem C7_auth_always_required (env env2 : Env) (url : String) (fp : Path)
    (body m : String) (status : Nat) (outcome : HttpOutcome) (u p : String)
    (hu : getEnvD env "DISTBUILD_AUTH_USER" = u) (hu0 : u ≠ "")
    (hp : getEnvD env "DISTBUILD_AUTH_PASSWORD" = p) (hp0 : p ≠ "")
    (habs : getEnvD env2 "DISTBUILD_AUTH_USER" = ""
      ∨ getEnvD env2 "DISTBUILD_AUTH_PASSWORD" = "") :
    ((downloadFile env url fp (HttpOutcome.response 200 body)).request =
        some { url := url, basicAuth := some (u, p) }
      ∧ (downloadFile env url fp (HttpOutcome.response 200 body)).written =
          some (body, 0o755)
      ∧ (downloadFile env url fp (HttpOutcome.response 200 body)).result =
          Except.ok ())
    ∧ (downloadFile env url fp (HttpOutcome.transportFailure m)).request =
        some { url := url, basicAuth := some (u, p) }
    ∧ (downloadFile env2 url fp outcome).result =
        Except.error
          ("environment variables DISTBUILD_AUTH_USER or DISTBUILD_AUTH_PASSWORD not set ["
            ++ baseName fp ++ "]")
    ∧ (downloadFileV1 url fp (HttpOutcome.response status body)).request =
        some { url := url, basicAuth := none } := by
  subst hu
  subst hp
  have hg : ¬ (getEnvD env "DISTBUILD_AUTH_USER" = ""
      ∨ getEnvD env "DISTBUILD_AUTH_PASSWORD" = "") := by
    push_neg
    exact ⟨hu0, hp0⟩
  refine ⟨⟨?_, ?_, ?_⟩, ?_, ?_, rfl⟩
  · simp [downloadFile, hg]
  · simp [downloadFile, hg]
  · simp [downloadFile, hg]
  · unfold downloadFile
    rw [if_neg hg]
  · unfold downloadFile
    rw [if_pos habs]

/-- C7 witness: credentials attached and file written at a concrete input;
failure at a concrete credential-free environment. -/
theorem C7_witness :
    (downloadFile [("DISTBUILD_AUTH_USER", "usr"), ("DISTBUILD_AUTH_PASSWORD", "pw")]
        "http://h/d" ["bin", "distninja"] (HttpOutcome.response 200 "bits")).request
      = some { url := "http://h/d", basicAuth := some ("usr", "pw") }
    ∧ (downloadFile [("DISTBUILD_AUTH_USER", "usr"), ("DISTBUILD_AUTH_PASSWORD", "pw")]
        "http://h/d" ["bin", "distninja"] (HttpOutcome.response 200 "bits")).written
      = some ("bits", 0o755)
    ∧ (downloadFile [("AUTH_USER", "x")] "http://h/d" ["bin", "distninja"]
        (HttpOutcome.response 200 "bits")).result
      = Except.error
          ("environment variables DISTBUILD_AUTH_USER or DISTBUILD_AUTH_PASSWORD not set ["
            ++ baseName ["bin", "distninja"] ++ "]") := by
  have h := C7_auth_always_required
    [("DISTBUILD_AUTH_USER", "usr"), ("DISTBUILD_AUTH_PASSWORD", "pw")]
    [("AUTH_USER", "x")] "http://h/d" ["bin", "distninja"] "bits" "m" 404
    (HttpOutcome.response 200 "bits") "usr" "pw"
    rfl (by decide) rfl (by decide) (Or.inl rfl)
  exact ⟨h.1.1, h.1.2.1, h.2.2.1⟩

/-- C8: any symlink failure is fatal and partial linking is left as-is: if
the distninja link fails, `createSymlinks` returns that error and the proxy
link is never attempted; if the distninja link succeeds and the proxy link
fails, the error is returned with the distninja link still installed and
nothing removed; when both succeed both links are installed. -/
theorem C8_symlink_failures (dp : Path) (e1 e2 : String) (l2 : Option String) :
    ((createSymlinks dp (some e1) l2).result =
        Except.error ("distninja symlink failed: " ++ e1)
      ∧ (createSymlinks dp (some e1) l2).attempted =
          [(dp ++ ["boong", "bin", "distninja"], usrLocalBin "distninja")]
      ∧ (createSymlinks dp (some e1) l2).installed = [])
    ∧ ((createSymlinks dp none (some e2)).result =
        Except.error ("proxy symlink failed: " ++ e2)
      ∧ (createSymlinks dp none (some e2)).attempted =
          [(dp ++ ["boong", "bin", "distninja"], usrLocalBin "distninja"),
           (dp ++ ["boong", "bin", "proxy"], usrLocalBin "proxy")]
      ∧ (createSymlinks dp none (some e2)).installed =
          [FsAction.lnForce (dp ++ ["boong", "bin", "distninja"])
            (usrLocalBin "distninja")])
    ∧ ((createSymlinks dp none none).result = Except.ok ()
      ∧ (createSymlinks dp none none).installed =
          [FsAction.lnForce (dp ++ ["boong", "bin", "distninja"])
            (usrLocalBin "distninja"),
           FsAction.lnForce (dp ++ ["boong", "bin", "proxy"])
            (usrLocalBin "proxy")]) :=
  ⟨⟨rfl, rfl, rfl⟩, ⟨rfl, rfl, rfl⟩, rfl, rfl⟩

theorem runSteps_mode (d : Bool) (fails : Step → Bool) :
    (runSteps d fails).1.all isAgentModeStep = true
    ∨ (runSteps d fails).1.all isProvModeStep = true := by
  cases d with
  | true =>
    left
    by_cases h0 : fails Step.loadEnv = true
    · simp [runSteps, h0, isAgentModeStep]
    · by_cases h1 : fails Step.dlAgent = true
      · simp [runSteps, h0, h1, isAgentModeStep]
      · by_cases h2 : fails Step.startAgent = true
        · simp [runSteps, h0, h1, h2, isAgentModeStep]
        · simp [runSteps, h0, h1, h2, isAgentModeStep]
  | false =>
    right
    by_cases h0 : fails Step.loadEnv = true
    · simp [runSteps, h0, isProvModeStep]
    · by_cases h1 : fails Step.cloneRepo = true
      · simp [runSteps, h0, h1, isProvModeStep]
      · by_cases h2 : fails Step.dlResources = true
        · simp [runSteps, h0, h1, h2, isProvModeStep]
        · by_cases h3 : fails Step.symlinks = true
          · simp [runSteps, h0, h1, h2, h3, isProvModeStep]
          · simp [runSteps, h0, h1, h2, h3, isProvModeStep]

/-- C9: supplying both `--aosp-path` and `--deploy-agent` is rejected by the
flag layer before any step runs — no environment loading, clone, download or
filesystem mutation — and the two run modes are mutually exclusive: any
step list `run` executes consists of agent-deploy steps only or of
provisioning steps only, never a mixture. -/
theorem C9_mutual_exclusion (a : String) (d : Bool) (fails : Step → Bool)
    (aospFlag : Option String) (deployFlag : Option Bool) :
    execute (some a) (some d) fails = Except.error mutualExclusionError
    ∧ (∀ steps ok, execute aospFlag deployFlag fails = Except.ok (steps, ok) →
        steps.all isAgentModeStep = true ∨ steps.all isProvModeStep = true) := by
  constructor
  · unfold execute
    rw [if_pos (by simp)]
  · intro steps ok h
    unfold execute at h
    split at h
    · exact absurd h (by simp)
    · split at h
      · exact absurd h (by simp)
      · have hr : runSteps (deployFlag.getD false) fails = (steps, ok) :=
          Except.ok.inj h
        have hm := runSteps_mode (deployFlag.getD false) fails
        rw [hr] at hm
        exact hm

/-- C9 witness: both flags supplied is rejected; a concrete provisioning run
executes only provisioning steps. -/
theorem C9_witness :
    execute (some "ap") (some true) (fun _ => false) =
      Except.error mutualExclusionError
    ∧ ([Step.loadEnv, Step.cloneRepo, Step.dlResources, Step.symlinks].all
        isAgentModeStep = true
      ∨ [Step.loadEnv, Step.cloneRepo, Step.dlResources, Step.symlinks].all
          isProvModeStep = true) := by
  have h := C9_mutual_exclusion "ap" true (fun _ => false) (some "x") none
  exact ⟨h.1,
    h.2 [Step.loadEnv, Step.cloneRepo, Step.dlResources, Step.symlinks] true rfl⟩

theorem cloneActs_idempotent (repoMap : String → Path → Option FsEntry)
    (r : String) (t : Path) (fs : Fs) :
    applyActs repoMap
        [FsAction.removeAll t, FsAction.mkdirAll t, FsAction.gitClone r t]
        (applyActs repoMap
          [FsAction.removeAll t, FsAction.mkdirAll t, FsAction.gitClone r t] fs)
      = applyActs repoMap
          [FsAction.removeAll t, FsAction.mkdirAll t, FsAction.gitClone r t] fs := by
  funext p
  simp only [applyActs, List.foldl_cons, List.foldl_nil, applyAct]
  by_cases hpt : p = t
  · simp [hpt, seg_refl]
  · by_cases hseg : seg t p = true
    · simp [hpt, hseg]
    · by_cases hpt2 : seg p t = true
      · cases hfp : fs p <;> simp [hpt, hseg, hpt2, hfp]
      · simp [hpt, hseg, hpt2]

/-- C6 counterexample: the first variant's `cloneDistbuildRepo` (lines
104-124) performs no removal at all: on a concrete successful run its
filesystem trace is exactly MkdirAll followed by the clone, with no
RemoveAll, so prior contents of the target are not wiped. -/
theorem C6_counterexample :
    (cloneDistbuildRepoV1 [("DISTBUILD_REPO", "url")] ["aosp"] none).1 = Except.ok ()
    ∧ (cloneDistbuildRepoV1 [("DISTBUILD_REPO", "url")] ["aosp"] none).2
      = [FsAction.mkdirAll ["aosp", "build", "distbuild"],
         FsAction.gitClone "url" ["aosp", "build", "distbuild"]]
    ∧ actsHaveRemove
        (cloneDistbuildRepoV1 [("DISTBUILD_REPO", "url")] ["aosp"] none).2 = false :=
  ⟨rfl, rfl, rfl⟩

/-- C6 amended: in the variants that wipe first (lines 344-369 and 639-664),
`cloneDistbuildRepo` recursively removes the target, recreates it, and
clones, and the step is idempotent: applying the successful trace's
filesystem effect twice yields the same tree as applying it once. The first
variant (lines 104-124) only creates the directory and performs no
removal. -/
theorem C6_clone_wipes_and_idempotent (repoMap : String → Path → Option FsEntry)
    (env : Env) (aosp : Path) (r : String)
    (h : lookupEnv env "DISTBUILD_REPO" = some r) :
    (cloneDistbuildRepo env aosp none).1 = Except.ok ()
    ∧ (cloneDistbuildRepo env aosp none).2 =
        [FsAction.removeAll (aosp ++ ["build", "distbuild"]),
         FsAction.mkdirAll (aosp ++ ["build", "distbuild"]),
         FsAction.gitClone r (aosp ++ ["build", "distbuild"])]
    ∧ ∀ fs : Fs,
        applyActs repoMap (cloneDistbuildRepo env aosp none).2
            (applyActs repoMap (cloneDistbuildRepo env aosp none).2 fs)
          = applyActs repoMap (cloneDistbuildRepo env aosp none).2 fs := by
  have ht : (cloneDistbuildRepo env aosp none).2 =
      [FsAction.removeAll (aosp ++ ["build", "distbuild"]),
       FsAction.mkdirAll (aosp ++ ["build", "distbuild"]),
       FsAction.gitClone r (aosp ++ ["build", "distbuild"])] := by
    simp [cloneDistbuildRepo, h]
  refine ⟨by simp [cloneDistbuildRepo, h], ht, ?_⟩
  intro fs
  rw [ht]
  exact cloneActs_idempotent repoMap r (aosp ++ ["build", "distbuild"]) fs

/-- C6 witness: a concrete successful clone whose trace wipes first and
whose filesystem effect is idempotent on a concrete empty filesystem. -/
theorem C6_witness :
    (cloneDistbuildRepo [("DISTBUILD_REPO", "u1")] ["a"] none).1 = Except.ok ()
    ∧ (cloneDistbuildRepo [("DISTBUILD_REPO", "u1")] ["a"] none).2 =
        [FsAction.removeAll (["a"] ++ ["build", "distbuild"]),
         FsAction.mkdirAll (["a"] ++ ["build", "distbuild"]),
         FsAction.gitClone "u1" (["a"] ++ ["build", "distbuild"])]
    ∧ applyActs (fun _ _ => none)
        (cloneDistbuildRepo [("DISTBUILD_REPO", "u1")] ["a"] none).2
        (applyActs (fun _ _ => none)
          (cloneDistbuildRepo [("DISTBUILD_REPO", "u1")] ["a"] none).2
          (fun _ => none))
      = applyActs (fun _ _ => none)
          (cloneDistbuildRepo [("DISTBUILD_REPO", "u1")] ["a"] none).2
          (fun _ => none) := by
  have h := C6_clone_wipes_and_idempotent (fun _ _ => none)
    [("DISTBUILD_REPO", "u1")] ["a"] "u1" rfl
  exact ⟨h.1, h.2.1, h.2.2 (fun _ => none)⟩

end Bootstrap
